import Mathlib

/-!
Verification development for the yaqcThor acquisition scripts.

The repository drives laboratory instruments through polling proxies.  The
definitions below are shallow embeddings of the control logic, translated
statement by statement from the Python sources:

* helpers.py       : waitfor (the Poll-Until-Ready primitive)
* PLE.py           : the double-underscore waitfor variant, and the PLE scan loop
* monitor_power /
  experiments.py   : monitor_power (the Continuous Sampler)
* tuning_curve /
  experiments.py   : tuning_curve (Swept Scalar Acquisition)
* experiments.py   : PLE_spectrum (Gated Synchronized Acquisition)

Device responses are supplied as oracles: a function from the index of a
measure-and-wait call to the observed outcome (none meaning the waitfor call
reported a timeout, some v meaning the device became ready and the fetched
reading had value v), and a function from a setpoint index to the number of
busy polls the camera answers with true during that exposure.  Time is
measured in 1 ms ticks, matching the 0.001 s sleep granularity of the source;
loops that the source lets run unboundedly are given explicit fuel, with the
outer none of the result meaning the loop had not exited within that fuel.
-/

namespace YaqcThor

/-- Model of helpers.waitfor (helpers.py lines 141-151).  The k-th call of
daemon.busy() returns busy k.  One loop iteration is one 1 ms tick, so after
the iteration with busy index k the timer equals k + 1 ticks; limitMs is
time_limit_s expressed in the same ticks.  The loop body sets timed_out only
under the guard time_limit_s greater than zero.  The function returns
timed_out when the limit is positive and the Python value None otherwise,
encoded as the inner Option.  The outer none means the loop had not exited
within the given fuel. -/
def waitforRun (busy : Nat → Bool) (limitMs : Int) :
    Nat → Nat → Bool → Option (Option Bool)
  | 0, _, _ => none
  | fuel + 1, k, t =>
    if busy k && !t then
      waitforRun busy limitMs fuel (k + 1)
        (if 0 < limitMs ∧ limitMs < (k : Int) + 1 then true else t)
    else
      some (if 0 < limitMs then some t else none)

/-- Model of the module-private waitfor of PLE.py (lines 29-39).  Identical to
waitforRun except that the timeout test inside the loop lacks the guard on the
sign of the limit: the source writes plainly if timer greater than time_limit,
so a non-positive limit is exceeded after the very first tick. -/
def waitforPLERun (busy : Nat → Bool) (limitMs : Int) :
    Nat → Nat → Bool → Option (Option Bool)
  | 0, _, _ => none
  | fuel + 1, k, t =>
    if busy k && !t then
      waitforPLERun busy limitMs fuel (k + 1)
        (if limitMs < (k : Int) + 1 then true else t)
    else
      some (if 0 < limitMs then some t else none)

/-- Value of the Python expression [start, stop].sort(): the list method sorts
in place and returns None (experiments.py line 255 and line 127, PLE.py
line 57 all star-unpack this value). -/
def pySortInPlaceResult (_start _stop : Int) : Option (List Int) := none

/-- Model of np.arange(lo, hi, step) over integers for a positive step: the
half-open ascending sequence lo, lo + step, ... strictly below hi. -/
def arange (lo hi step : Int) : List Int :=
  (List.range (((hi - lo).toNat + (step.toNat - 1)) / step.toNat)).map
    (fun (j : Nat) => lo + step * (j : Int))

/-- Setpoint generation of experiments.py (line 255 in tuning_curve, line 127
in PLE_spectrum) and PLE.py line 57: np.arange star-unpacking the None
returned by the in-place sort raises a TypeError before any sequence
exists. -/
def experimentsSetpoints (start stop step : Int) : Except String (List Int) :=
  match pySortInPlaceResult start stop with
  | none => .error "TypeError: arange argument after star must be an iterable, not NoneType"
  | some l => .ok (arange (l.getD 0 0) (l.getD 1 0) step)

/-- Setpoint generation of tuning_curve.py lines 8-9: args is
sorted([start, stop]) plus [step], so np.arange receives the two endpoints in
ascending order. -/
def sortedSetpoints (start stop step : Int) : List Int :=
  arange (min start stop) (max start stop) step

/-- Value of np.min over a list of integers (0 for the empty list, which numpy
would reject; all uses here are on nonempty lists). -/
def npMin : List Int → Int
  | [] => 0
  | x :: xs => xs.foldl min x

/-- Value of np.max over a list of integers (0 for the empty list). -/
def npMax : List Int → Int
  | [] => 0
  | x :: xs => xs.foldl max x

/-- Condition of the range check at experiments.py line 128 and line 256: the
ValueError is raised when np.min(wls) is below 420 or np.max(wls) is below
700.  The second comparison is written with the less-than sign in the
source. -/
def rangeCheckRaises (wls : List Int) : Bool :=
  npMin wls < 420 || npMax wls < 700

/-- Continuous Sampler loop of monitor_power (experiments.py lines 40-59).
The slot index i runs over the preallocated capacity; r is the number of slots
still to visit.  At the top of each slot the loop first tests the completion
flag, recording points_measured and breaking when it is set; otherwise it
stores the elapsed time, triggers a measurement and waits.  On timeout it only
sets the flag, leaving the preallocated zero in the power slot; on success it
stores the reading.  The returned Option Nat is points_measured, none when the
assignment was never executed. -/
def monitorGo (oracle : Nat → Option Int) (elapsed : Nat → Rat) :
    Nat → Nat → Bool → List Rat → List Int → List Rat × List Int × Option Nat
  | 0, _, _, tArr, pArr => (tArr, pArr, none)
  | r + 1, i, done, tArr, pArr =>
    if done then (tArr, pArr, some i)
    else
      let tArr2 := tArr.set i (elapsed i)
      match oracle i with
      | none => monitorGo oracle elapsed r (i + 1) true tArr2 pArr
      | some v => monitorGo oracle elapsed r (i + 1) false tArr2 (pArr.set i v)

/-- Full monitor_power run over a capacity of cap slots (the source computes
cap as int(duration / cycle_time) + 1): the loop above followed by the
truncation time[:points_measured], power_out[:points_measured] at line 60.
When points_measured was never assigned, the truncation raises
UnboundLocalError, modelled as the error case. -/
def monitorRun (oracle : Nat → Option Int) (elapsed : Nat → Rat) (cap : Nat) :
    Except String (List Rat × List Int) :=
  let res := monitorGo oracle elapsed cap 0 false
    (List.replicate cap 0) (List.replicate cap 0)
  match res.2.2 with
  | none => .error "UnboundLocalError: points_measured referenced before assignment"
  | some m => .ok ((res.1.take m), (res.2.1.take m))

/-- Mean as computed by np.average over the zero-padded sample buffer. -/
def npAverage (l : List Int) : Rat :=
  ((l.sum : Int) : Rat) / (l.length : Rat)

/-- Variance of the buffer.  The source stores np.std, the square root of this
value; the square root of a rational is generally irrational, so the model
records the variance instead.  Lengths, truncation and the zero-padding
behaviour under scrutiny are unaffected. -/
def npVariance (l : List Int) : Rat :=
  (l.map (fun v => ((v : Rat) - npAverage l) ^ 2)).sum / (l.length : Rat)

/-- One run of n consecutive measure-and-wait calls on the power meter
starting at oracle index k, as in the dark loop (experiments.py lines 263-270)
and the inner sweep loop (lines 287-294): each call consumes one oracle entry;
a timeout breaks out immediately.  Returns the successfully recorded values in
order, the next oracle index, and the final pm_timeout flag. -/
def pmSampleRun (oracle : Nat → Option Int) : Nat → Nat → List Int × Nat × Bool
  | k, 0 => ([], k, false)
  | k, n + 1 =>
    match oracle k with
    | none => ([], k + 1, true)
    | some v =>
      let rest := pmSampleRun oracle (k + 1) n
      (v :: rest.1, rest.2.1, rest.2.2)

/-- Outcome of a tuning_curve call. -/
inductive TCOutcome
  | completed
  | busyAbort
  | darkAbort
  | unboundCrash
  deriving DecidableEq, Repr

/-- The dataset persisted by tuning_curve (experiments.py lines 306-315): the
wl variable keeps the full setpoint list (line 307 is not truncated), the
power and std channels hold the possibly truncated aggregates, and dark is the
pair computed from the dark-reference buffer (std recorded as variance, see
npVariance). -/
structure TCCurve where
  wl : List Int
  power : List Rat
  std : List Rat
  dark : Rat × Rat
  deriving DecidableEq, Repr

/-- Observable result of a tuning_curve call: the setpoints at which
opo.set_position was called, in order; the persisted dataset if any; and how
the call ended. -/
structure TCResult where
  moves : List Int
  curve : Option TCCurve
  outcome : TCOutcome
  deriving DecidableEq, Repr

/-- Main sweep of tuning_curve (experiments.py lines 277-297).  Arguments:
remaining setpoints, the enumerate index i, the next oracle index, and the
live pm_timeout flag.  A set flag at the top of an iteration assigns
points_measured and breaks; otherwise the OPO is moved, pm_samples readings
are attempted into a zero-initialised buffer, and the aggregate of the
(possibly zero-padded) buffer is stored unconditionally at lines 296-297.
Returns (moves, aggregates in order, final flag, points_measured). -/
def tcSweepGo (oracle : Nat → Option Int) (samples : Nat) :
    List Int → Nat → Nat → Bool → List Int × List (Rat × Rat) × Bool × Option Nat
  | [], _, _, t => ([], [], t, none)
  | wl :: rest, i, k, t =>
    if t then ([], [], t, some i)
    else
      let s := pmSampleRun oracle k samples
      let p := s.1 ++ List.replicate (samples - s.1.length) 0
      let pt := (npAverage p, npVariance p)
      let r := tcSweepGo oracle samples rest (i + 1) s.2.1 s.2.2
      (wl :: r.1, pt :: r.2.1, r.2.2.1, r.2.2.2)

/-- Model of the body of tuning_curve in experiments.py from line 244 onward,
taking the already generated setpoint list as a parameter (the generation at
line 255 is modelled separately by experimentsSetpoints, since the star-unpack
of the in-place sort raises before this body can run).  busy0 is the value of
pm.busy() at line 248: when true, the call aborts before the dark phase.  The
dark-reference loop aborts the whole call on any timeout (lines 266-268).
After the sweep, a set flag truncates the power and std channels to
points_measured (lines 299-301); if points_measured was never assigned the
slice raises UnboundLocalError.  Untouched slots of the preallocated arrays
remain zero pairs. -/
def tuningCurveRun (busy0 : Bool) (oracle : Nat → Option Int) (samples : Nat)
    (wls : List Int) : TCResult :=
  if busy0 then ⟨[], none, TCOutcome.busyAbort⟩
  else
    let dark := pmSampleRun oracle 0 samples
    if dark.2.2 then ⟨[], none, TCOutcome.darkAbort⟩
    else
      let darkPt := (npAverage dark.1, npVariance dark.1)
      let sweep := tcSweepGo oracle samples wls 0 dark.2.1 false
      let full := sweep.2.1 ++
        List.replicate (wls.length - sweep.2.1.length) ((0 : Rat), (0 : Rat))
      if sweep.2.2.1 then
        match sweep.2.2.2 with
        | none => ⟨sweep.1, none, TCOutcome.unboundCrash⟩
        | some m =>
          ⟨sweep.1,
           some ⟨wls, (full.take m).map Prod.fst, (full.take m).map Prod.snd, darkPt⟩,
           TCOutcome.completed⟩
      else
        ⟨sweep.1, some ⟨wls, full.map Prod.fst, full.map Prod.snd, darkPt⟩,
         TCOutcome.completed⟩

/-- Write into row r, column c of a matrix stored as a list of rows, failing
like a numpy IndexError on an out-of-range index. -/
def mset {α : Type} (m : List (List α)) (r c : Nat) (v : α) :
    Option (List (List α)) :=
  match m.get? r with
  | none => none
  | some row =>
    if c < row.length then some (m.set r (row.set c v)) else none

/-- Device behaviour driving one PLE_spectrum run: camBusy w is the number of
camera.busy() polls answered true during the exposure at setpoint index w,
pmO is the power-meter oracle indexed by measure-and-wait call, and elapsed w
m is the wall-clock reading taken at the top of inner iteration m of setpoint
w. -/
structure PLEIn where
  camBusy : Nat → Nat
  pmO : Nat → Option Int
  elapsed : Nat → Nat → Rat

/-- State threaded through the PLE_spectrum sweep: next power-meter oracle
index, the live pm_timeout flag, t_max, the labtime and power matrices, plus
two observation fields not present in the source: the per-setpoint counts of
recorded samples and the number of images fetched. -/
structure PLEState where
  k : Nat
  flag : Bool
  tmax : Nat
  t : List (List Rat)
  P : List (List Int)
  counts : List Nat
  images : Nat
  deriving DecidableEq, Repr

/-- Inner sampling loop of PLE_spectrum (experiments.py lines 157-167, PLE.py
lines 99-109), entered with the per-setpoint counter i at zero.  The loop runs
for as long as the camera reports busy (b is the number of busy polls still to
be answered true), regardless of the flag: each iteration writes the elapsed
time at column i, triggers the power meter, overwrites pm_timeout with the
fresh waitfor result, and on success with i below t.size records the power at
column i and increments i; otherwise it only prints the timeout warning.
Matrix writes out of range fail like numpy IndexError.  Returns
(i, next oracle index, final flag, t, P). -/
def pleInner (inp : PLEIn) (tsize w : Nat) :
    Nat → Nat → Nat → Nat → Bool → List (List Rat) → List (List Int) →
    Except String (Nat × Nat × Bool × List (List Rat) × List (List Int))
  | 0, _, i, k, flag, t, P => .ok (i, k, flag, t, P)
  | b + 1, m, i, k, _flag, t, P =>
    match mset t w i (inp.elapsed w m) with
    | none => .error "IndexError"
    | some t2 =>
      match inp.pmO k with
      | none => pleInner inp tsize w b (m + 1) i (k + 1) true t2 P
      | some v =>
        if i < tsize then
          match mset P w i v with
          | none => .error "IndexError"
          | some P2 => pleInner inp tsize w b (m + 1) (i + 1) (k + 1) false t2 P2
        else
          pleInner inp tsize w b (m + 1) i (k + 1) false t2 P

/-- Outer sweep of PLE_spectrum (experiments.py lines 148-175) for a run with
a power meter supplied: per setpoint the OPO is repositioned and the camera
triggered; if pm_timeout is clear the inner sampling loop runs and t_max is
raised to the recorded count when larger (lines 168-169), otherwise the code
only waits for the camera.  In both branches the image is then fetched
(lines 174-175), counted here in the images field. -/
def pleOuter (inp : PLEIn) (tsize : Nat) :
    List Int → Nat → PLEState → Except String PLEState
  | [], _, s => .ok s
  | _wl :: rest, w, s =>
    if s.flag then
      pleOuter inp tsize rest (w + 1)
        { s with counts := s.counts ++ [0], images := s.images + 1 }
    else
      match pleInner inp tsize w (inp.camBusy w) 0 0 s.k s.flag s.t s.P with
      | .error e => .error e
      | .ok (i, k2, flag2, t2, P2) =>
        pleOuter inp tsize rest (w + 1)
          { k := k2, flag := flag2,
            tmax := if s.tmax < i then i else s.tmax,
            t := t2, P := P2,
            counts := s.counts ++ [i], images := s.images + 1 }

/-- Data handed to persistence for the power dataset of PLE_spectrum: t_max,
the observation fields, and the two trimmed channels of line 203.  The power
channel is sliced P[:, :t_max]; the labtime channel is sliced t[:, t_max],
which keeps a single column, one scalar per setpoint (the round(3) of the
source only rounds values and is omitted). -/
structure PLEOut where
  tmax : Nat
  counts : List Nat
  flag : Bool
  images : Nat
  labtime : List Rat
  power : List (List Int)
  deriving DecidableEq, Repr

/-- Full PLE_spectrum sweep and trim for a run with a power meter present,
over an already generated setpoint list and buffers of width cols (the source
computes the width from the exposure time and cycle time).  darkTimeout is the
pm_timeout value produced by the dark phase at line 140, which is the live
flag when the sweep begins.  t.size of the guard at line 162 is the total
element count rows times cols.  After the sweep, line 203 slices the channels;
indexing column t_max of a width cols matrix fails like numpy IndexError when
t_max is not below cols. -/
def pleRun (inp : PLEIn) (wls : List Int) (cols : Nat) (darkTimeout : Bool) :
    Except String PLEOut :=
  let t0 := List.replicate wls.length (List.replicate cols (0 : Rat))
  let P0 := List.replicate wls.length (List.replicate cols (0 : Int))
  match pleOuter inp (wls.length * cols) wls 0
      ⟨0, darkTimeout, 0, t0, P0, [], 0⟩ with
  | .error e => .error e
  | .ok s =>
    match s.t.mapM (fun row => row.get? s.tmax) with
    | none => .error "IndexError"
    | some col => .ok ⟨s.tmax, s.counts, s.flag, s.images, col,
        s.P.map (fun row => row.take s.tmax)⟩

/-- Statement kinds of the PLE_spectrum prologue (experiments.py
lines 114-150) that matter for the failure ordering of claim C9. -/
inductive PLEStep
  | getPmConfig
  | callPmConfigAsFn
  | readWlsForBuffers
  | assignWls
  | rangeCheck
  | moveOpo
  deriving DecidableEq, Repr

/-- Trace of executed prologue steps together with the raised error, if
any. -/
structure SetupOutcome where
  executed : List PLEStep
  error : Option String
  deriving DecidableEq, Repr

/-- Straight-line model of the PLE_spectrum prologue for a call with a power
meter supplied (experiments.py lines 114-129).  Line 116 fetches the
configuration; line 117 then evaluates pm_config() with call parentheses.
Under the device-proxy contract the configuration is a mapping, so this raises
TypeError.  The parameter pmConfigCallable grants the counterfactual in which
the proxy returned a callable: execution then reaches line 119, whose buffer
shape reads wls.size, but the local wls is first assigned at line 127, so the
read raises UnboundLocalError.  Either way execution never reaches the wls
assignment, the range check at line 128, or any OPO motion at line 150. -/
def pleSetupRun (pmConfigCallable : Bool) : SetupOutcome :=
  if pmConfigCallable then
    { executed := [PLEStep.getPmConfig, PLEStep.callPmConfigAsFn,
        PLEStep.readWlsForBuffers],
      error := some "UnboundLocalError: local variable wls referenced before assignment" }
  else
    { executed := [PLEStep.getPmConfig, PLEStep.callPmConfigAsFn],
      error := some "TypeError: the configuration mapping is not callable" }

/-- Concrete device behaviour for the C1 counterexample: the camera stays busy
for two inner iterations at every setpoint, the first power-meter call times
out and every later one succeeds with reading 5. -/
def c1In : PLEIn :=
  ⟨fun _ => 2, fun k => if k = 0 then none else some 5, fun _ _ => 0⟩

/-- Concrete device behaviour with one busy poll per exposure and a power
meter that always answers with reading 5. -/
def c2In : PLEIn :=
  ⟨fun _ => 1, fun _ => some 5, fun _ _ => 0⟩

/-- Concrete state with the timeout flag set, used to instantiate the amended
C1 theorem. -/
def cwState : PLEState :=
  ⟨0, true, 0, [[0]], [[0]], [], 0⟩

/-- Power-meter oracle for the C3 evaluation: the two dark samples succeed
with reading 3, the first sweep sample times out. -/
def c3Oracle : Nat → Option Int :=
  fun k => if k < 2 then some 3 else none

/-- Power-meter oracle for the C4 evaluation: one successful reading of 7,
then a timeout. -/
def c4Oracle : Nat → Option Int :=
  fun k => if k = 0 then some 7 else none

/-! Helper lemmas. -/

/-- An ascending arange is strictly sorted for a positive step. -/
theorem arange_pairwise (lo hi step : Int) (hs : 0 < step) :
    (arange lo hi step).Pairwise (· < ·) := by
  have key : ∀ a b : Nat, a < b → lo + step * (a : Int) < lo + step * (b : Int) := by
    intro a b hab
    have hab2 : (a : Int) < (b : Int) := by exact_mod_cast hab
    exact add_lt_add_left (mul_lt_mul_of_pos_left hab2 hs) lo
  unfold arange
  exact List.pairwise_map.mpr
    ((List.pairwise_lt_range _).imp (fun hab => key _ _ hab))

/-- A timeout anywhere among the n attempted samples forces the returned
pm_timeout flag. -/
theorem pmSampleRun_flag_of_none (oracle : Nat → Option Int) :
    ∀ n k i, i < n → oracle (k + i) = none →
      (pmSampleRun oracle k n).2.2 = true := by
  intro n
  induction n with
  | zero => intro k i hi _; exact absurd hi (Nat.not_lt_zero i)
  | succ m ih =>
    intro k i hi h
    cases ho : oracle k with
    | none => simp [pmSampleRun, ho]
    | some v =>
      have hi0 : i ≠ 0 := by
        intro h0
        rw [h0, Nat.add_zero] at h
        rw [h] at ho
        exact Option.noConfusion ho
      obtain ⟨j, rfl⟩ : ∃ j, i = j + 1 := ⟨i - 1, by omega⟩
      have hr := ih (k + 1) j (by omega)
        (by rw [show k + 1 + j = k + (j + 1) by omega]; exact h)
      simpa [pmSampleRun, ho] using hr

/-! Claim theorems. -/

/-- C1, counterexample.  The claim says the first power-meter timeout sets a
sticky flag that is never cleared and that the sampling loop of the current
setpoint is skipped entirely once it is set.  In the run below the very first
power-meter call times out (first conjunct), yet the run ends with the flag
clear, one sample recorded at that same setpoint, and that sample persisted:
the inner loop keeps polling while the camera is busy and the next successful
waitfor overwrites the flag. -/
theorem c1_counterexample :
    c1In.pmO 0 = none ∧
    (pleRun c1In [450] 2 false).toOption =
      some ⟨1, [1], false, 1, [0], [[5]]⟩ := by
  decide

/-- C1, amended.  Only the value of pm_timeout at the close of an exposure
window is sticky: whenever the sweep reaches a setpoint with the flag set, the
sampling loop of that and of every later setpoint is skipped entirely, no
sample is recorded there (a zero count is appended per setpoint), the flag is
never reassigned, and the camera image is still fetched at every remaining
setpoint. -/
theorem c1_amended_sticky (inp : PLEIn) (tsize : Nat) (wls : List Int)
    (w : Nat) (s : PLEState) (hf : s.flag = true) :
    pleOuter inp tsize wls w s =
      Except.ok { s with counts := s.counts ++ List.replicate wls.length 0,
                         images := s.images + wls.length } := by
  induction wls generalizing w s with
  | nil => simp [pleOuter]
  | cons a rest ih =>
    rw [pleOuter, if_pos hf,
      ih (w + 1) { s with counts := s.counts ++ [0], images := s.images + 1 } hf]
    refine congrArg Except.ok ?_
    simp only [PLEState.mk.injEq, List.replicate_succ, List.append_assoc,
      List.singleton_append, List.length_cons, true_and]
    omega

/-- C1, witness for the amended theorem at a concrete flagged state. -/
theorem c1_amended_witness :
    pleOuter c1In 1 [450] 0 cwState =
      Except.ok { cwState with
        counts := cwState.counts ++ List.replicate (List.length [(450 : Int)]) 0,
        images := cwState.images + List.length [(450 : Int)] } :=
  c1_amended_sticky c1In 1 [450] 0 cwState rfl

/-- C2, evaluation at the failing inputs.  First conjunct: a run whose dark
phase timed out records no samples anywhere, so t_max equals 0 (the maximum
recorded count, as the claim says), but the persisted labtime channel, sliced
as column t_max of t instead of the first t_max columns, still hands one time
value per setpoint to persistence, a series longer than t_max; the power
channel is correctly empty.  Second conjunct: a run whose maximum count
equals the buffer width makes the same column slice raise IndexError. -/
theorem c2_bug_eval :
    (pleRun c1In [450, 460] 3 true).toOption =
      some ⟨0, [0, 0], true, 2, [0, 0], [[], []]⟩ ∧
    (pleRun c2In [450] 1 false).toOption = none := by
  decide

/-- C3, evaluation at the failing input.  The claim says that a first
reference timeout at setpoint index j leaves exactly j aggregated points.  In
the run below the dark phase succeeds and the first sweep sample at setpoint
index 0 times out, yet one point is persisted: the aggregate of the fully
zero-padded buffer of the timed-out setpoint, because points_measured is
assigned only at the top of the following iteration.  Second conjunct: when
the first timeout hits the last setpoint there is no following iteration and
the truncation crashes on the unassigned points_measured. -/
theorem c3_bug_eval :
    (tuningCurveRun false c3Oracle 2 [450, 460]).moves = [450] ∧
    (tuningCurveRun false c3Oracle 2 [450, 460]).outcome = TCOutcome.completed ∧
    ((tuningCurveRun false c3Oracle 2 [450, 460]).curve.map TCCurve.wl) =
      some [450, 460] ∧
    ((tuningCurveRun false c3Oracle 2 [450, 460]).curve.map TCCurve.power) =
      some [npAverage (List.replicate 2 0)] ∧
    (tuningCurveRun false c3Oracle 2 [450]).outcome = TCOutcome.unboundCrash := by
  refine ⟨by decide, by decide, by decide, by rfl, by decide⟩

/-- C4, evaluation at the failing input.  The claim says a timeout after
exactly k successful samples persists series of length exactly k.  With one
success (reading 7) followed by a timeout in a capacity of three slots, the
persisted series have length two: the timed-out slot keeps its timestamp and a
zero power value, because points_measured is assigned only one iteration after
the completion flag is set.  Second conjunct: a run that never times out
leaves points_measured unassigned and the truncation crashes. -/
theorem c4_bug_eval :
    (monitorRun c4Oracle (fun i => (i : Rat)) 3).toOption = some ([0, 1], [7, 0]) ∧
    (monitorRun (fun _ => some 1) (fun i => (i : Rat)) 2).toOption = none := by
  decide

/-- C5, counterexample.  The claim says the plan start 500, stop 450, step 10
yields the setpoints 450 to 500 inclusive and is accepted.  As written the
generation returns no sequence at all (the in-place sort returns None and the
star-unpack raises TypeError), and the six-element sequence of the claim would
in any case be rejected by the range check as written. -/
theorem c5_counterexample :
    ¬ ((experimentsSetpoints 500 450 10).toOption =
        some [450, 460, 470, 480, 490, 500] ∧
       rangeCheckRaises [450, 460, 470, 480, 490, 500] = false) := by
  decide

/-- C5, amended.  Every plan fails in experiments.py before any physical
motion: setpoint generation raises TypeError because the in-place sort returns
None.  Under the intended sorted-endpoint generation of tuning_curve.py the
plan start 500, stop 450, step 10 yields 450, 460, 470, 480, 490 (np.arange
excludes the stop endpoint, so 500 is absent), and even that in-range sequence
would then be rejected because the upper-bound comparison of the range check
is written as less than 700. -/
theorem c5_amended_fail_fast (start stop step : Int) :
    (experimentsSetpoints start stop step).toOption = none ∧
    sortedSetpoints 500 450 10 = [450, 460, 470, 480, 490] ∧
    rangeCheckRaises (sortedSetpoints 500 450 10) = true := by
  exact ⟨rfl, by decide, by decide⟩

/-- C6.  For a plan with start above stop and a positive step, the sequence
generated by the sorted-endpoint generation of tuning_curve.py equals the one
generated with the endpoints swapped and is strictly ascending; the
experiments.py generation is likewise symmetric under the swap (degenerately:
both directions raise the same TypeError and never produce a sequence). -/
theorem c6_swap_and_ascending (start stop step : Int) (h : stop < start)
    (hs : 0 < step) :
    sortedSetpoints start stop step = sortedSetpoints stop start step ∧
    (sortedSetpoints start stop step).Pairwise (· < ·) ∧
    experimentsSetpoints start stop step = experimentsSetpoints stop start step := by
  refine ⟨?_, ?_, rfl⟩
  · simp [sortedSetpoints, min_comm, max_comm]
  · exact arange_pairwise _ _ _ hs

/-- C6, witness at the concrete plan start 500, stop 450, step 10. -/
theorem c6_witness :
    sortedSetpoints 500 450 10 = sortedSetpoints 450 500 10 ∧
    (sortedSetpoints 500 450 10).Pairwise (· < ·) ∧
    experimentsSetpoints 500 450 10 = experimentsSetpoints 450 500 10 :=
  c6_swap_and_ascending 500 450 10 (by decide) (by decide)

/-- C7.  First conjunct: helpers.waitfor with the defaulted negative limit on
a device that stays busy never exits its polling loop, for any fuel and any
starting poll index, exactly as the claim states.  Second conjunct: the
double-underscore waitfor of PLE.py on the same always-busy device with the
same defaulted limit returns (with the Python value None) after the very
first 1 ms poll, because its loop lacks the positive-limit guard on the
timeout test, contradicting the claim and its own docstring. -/
theorem c7_unbounded_wait :
    (∀ fuel k, waitforRun (fun _ => true) (-1) fuel k false = none) ∧
    waitforPLERun (fun _ => true) (-1) 5 0 false = some none := by
  constructor
  · intro fuel
    induction fuel with
    | zero => intro k; rfl
    | succ n ih =>
      intro k
      rw [waitforRun]
      have h1 : ((fun _ => true) k && !false) = true := rfl
      rw [if_pos h1]
      have h2 : ¬ (0 < (-1 : Int) ∧ (-1 : Int) < (k : Int) + 1) := by
        intro hc
        exact absurd hc.1 (by decide)
      rw [if_neg h2]
      exact ih (k + 1)
  · decide

/-- C8.  If any dark-reference sample of tuning_curve times out (the oracle
reports a timeout at some index among the first pm_samples calls and the meter
was not busy at entry), the whole acquisition aborts: the OPO is never moved,
no dataset is persisted, and the outcome is the dark-phase abort. -/
theorem c8_dark_abort (oracle : Nat → Option Int) (samples : Nat)
    (wls : List Int) (i : Nat) (hi : i < samples) (h : oracle i = none) :
    tuningCurveRun false oracle samples wls = ⟨[], none, TCOutcome.darkAbort⟩ := by
  have hflag : (pmSampleRun oracle 0 samples).2.2 = true :=
    pmSampleRun_flag_of_none oracle samples 0 i hi (by simpa using h)
  rw [tuningCurveRun]
  simp [hflag]

/-- C8, witness: a power meter that always times out aborts a one-setpoint
acquisition in the dark phase. -/
theorem c8_witness :
    tuningCurveRun false (fun _ => none) 1 [450] =
      ⟨[], none, TCOutcome.darkAbort⟩ :=
  c8_dark_abort (fun _ => none) 1 [450] 0 (by decide) rfl

/-- C9.  Every PLE_spectrum call with a power meter supplied fails during the
power-buffer prologue, before the range check, before the wls assignment, and
before any OPO motion: the configuration mapping is invoked as a function at
line 117, and even in the counterfactual where that call succeeded, line 119
reads the local wls, first assigned at line 127. -/
theorem c9_fails_before_check (c : Bool) :
    (pleSetupRun c).error.isSome = true ∧
    PLEStep.rangeCheck ∉ (pleSetupRun c).executed ∧
    PLEStep.assignWls ∉ (pleSetupRun c).executed ∧
    PLEStep.moveOpo ∉ (pleSetupRun c).executed := by
  cases c <;> decide

/-- C10.  Whenever helpers.waitfor returns, the returned value carries the
boolean timed-out flag exactly when the time limit was positive; with a zero,
negative or defaulted limit the returned value is the Python None, so the
caller receives no indication in that mode. -/
theorem c10_return_iff (busy : Nat → Bool) (limitMs : Int) :
    ∀ fuel k t r, waitforRun busy limitMs fuel k t = some r →
      (r.isSome ↔ 0 < limitMs) := by
  intro fuel
  induction fuel with
  | zero =>
    intro k t r h
    exact absurd h (by simp [waitforRun])
  | succ n ih =>
    intro k t r h
    rw [waitforRun] at h
    split at h
    · exact ih _ _ _ h
    · have h2 := Option.some.inj h
      by_cases hl : 0 < limitMs
      · rw [if_pos hl] at h2
        rw [← h2]
        simp [hl]
      · rw [if_neg hl] at h2
        rw [← h2]
        simp [hl]

/-- C10, witness: a call on an immediately ready device with the defaulted
limit returns the Python None, and indeed the limit is not positive. -/
theorem c10_witness : ((none : Option Bool).isSome ↔ (0 : Int) < -1) :=
  c10_return_iff (fun _ => false) (-1) 1 0 false none (by decide)

end YaqcThor
